import Mathlib

/-!
Verification of the Nagma music-streaming backend (Express/MongoDB).

The development shallowly embeds the backend request handlers as pure
Lean functions over explicit store states:

* `src/backend/routes/auth.js` — `registerHandler`, `loginHandler`;
* `src/backend/middlewares/authMiddleware.js` — `authMiddleware`;
* `src/backend/routes/playlists.js` — `createPlaylistHandler`,
  `listPlaylistsHandler`, `addSongsHandler`, `deletePlaylistHandler`.

External library collaborators (the `jsonwebtoken` signing/verification
contract, the `bcrypt` hashing contract, and the MongoDB document
operations `findOne`, `find`, `save`, `findByIdAndUpdate` with
`$addToSet`/`$each`, `findByIdAndDelete`) are modelled by concrete
executable functions capturing exactly the behaviour the handlers rely
on.  The User schema file is absent from the sources; its uniqueness
constraint is modelled from the specification where noted.
-/

/-- Model of the JavaScript string split method with a single-character
separator, acting on the character list.  Splitting the empty list
yields one empty segment; consecutive separators yield empty segments,
exactly as in JavaScript. -/
def splitOnChar (c : Char) : List Char → List (List Char)
  | [] => [[]]
  | x :: xs =>
    let r := splitOnChar c xs
    if x = c then [] :: r
    else
      match r with
      | [] => [[x]]
      | y :: ys => (x :: y) :: ys

/-- JavaScript-style `s.split(c)` on Lean strings. -/
def jsSplit (s : String) (c : Char) : List String :=
  (splitOnChar c s.data).map String.mk

/-! ## Token Service (model of the `jsonwebtoken` library contract)

In `auth.js` a claim set of userId and username is signed with expiresIn
set to one hour (so exp = iat + 3600 seconds); `authMiddleware.js` verifies the token
against the same process-wide secret; verification fails on a malformed
token, a signature mismatch, or an expired token. -/

/-- The decoded claim set of a session token: `{ userId, username, iat, exp }`. -/
structure JwtPayload where
  userId : String
  username : String
  iat : Nat
  exp : Nat
deriving DecidableEq, Repr

/-- A signed token: its payload plus the secret that signed it (the
signature is valid exactly against that secret). -/
structure Token where
  payload : JwtPayload
  sig : String
deriving DecidableEq, Repr

/-- Model of jwt.sign over the claim set of userId and username, with
expiresIn of one hour, at issuance instant `now` (seconds): embeds the
claim and an expiry exactly one hour after issuance. -/
def jwtSign (userId username secret : String) (now : Nat) : Token :=
  { payload := { userId := userId, username := username, iat := now, exp := now + 3600 }
    sig := secret }

/-- Model of jwt.verify on a structured token at instant `now`: succeeds
with the payload iff the signature matches `secret` and the token is not
expired. -/
def jwtVerify (t : Token) (secret : String) (now : Nat) : Option JwtPayload :=
  if t.sig = secret ∧ now < t.payload.exp then some t.payload else none

/-- Decimal digit-string parser used by the wire-format decoder. -/
def parseNatChars (l : List Char) : Option Nat :=
  match l with
  | [] => none
  | _ =>
    l.foldl
      (fun acc c =>
        acc.bind fun n => if c.isDigit then some (n * 10 + (c.toNat - 48)) else none)
      (some 0)

/-- Serialised wire format of a signed token (dot-separated fields,
standing in for the base64 JWT encoding). -/
def tokenToStr (t : Token) : String :=
  "jwt." ++ t.payload.userId ++ "." ++ t.payload.username ++ "." ++
    toString t.payload.iat ++ "." ++ toString t.payload.exp ++ "." ++ t.sig

/-- Parse of the wire format; any string not of the form produced by
`tokenToStr` is malformed and yields `none`. -/
def strToToken (s : String) : Option Token :=
  match jsSplit s '.' with
  | [tag, uid, uname, iatS, expS, sg] =>
    if tag = "jwt" then
      match parseNatChars iatS.data, parseNatChars expS.data with
      | some iat, some e => some { payload := { userId := uid, username := uname, iat := iat, exp := e }, sig := sg }
      | _, _ => none
    else none
  | _ => none

/-- Model of jwt.verify on a raw token string: parse, then verify;
malformed strings fail. -/
def jwtVerifyStr (s secret : String) (now : Nat) : Option JwtPayload :=
  (strToToken s).bind fun t => jwtVerify t secret now

/-! ## bcrypt (model of the hashing library contract) -/

/-- Model of `bcrypt.hash(password, cost)`: a one-way hash string
determined by the password and the cost factor (the handler always uses
cost 10). -/
def bcryptHash (password : String) (cost : Nat) : String :=
  "$2b$" ++ toString cost ++ "$" ++ password

/-- Model of `bcrypt.compare(password, hash)`: true iff `hash` was
produced by hashing `password`. -/
def bcryptCompare (password hash : String) : Bool :=
  hash == bcryptHash password 10

/-! ## Credential store and Auth Service (`src/backend/routes/auth.js`) -/

/-- A persisted user record: `{ _id, username, password }`, where
`password` stores the bcrypt hash. -/
structure UserRec where
  id : String
  username : String
  password : String
deriving DecidableEq, Repr

/-- Modelled from the spec: the User schema file is missing from the
sources; per §3 ("Username uniqueness enforced at creation") the store
rejects `save` of a user whose username already exists, surfacing a
store-level uniqueness violation as an error. -/
def saveUser (store : List UserRec) (u : UserRec) : Except Unit (List UserRec) :=
  if store.any (fun v => v.username == u.username) then .error ()
  else .ok (store ++ [u])

/-- An HTTP response from the auth routes: status, JSON message, and the
token field when present.  The token is carried structured; its
serialisation is the external wire format. -/
structure AuthResponse where
  status : Nat
  message : String
  token : Option Token
deriving DecidableEq, Repr

/-- Handler for POST /api/auth/register: hashes the password with cost 10
and saves the new user.  The handler has no try/catch: when `save` rejects
(duplicate username) the handler sends no response at all (`none`) —
the rejection escapes to the framework unhandled. -/
def registerHandler (store : List UserRec) (username password newId : String) :
    List UserRec × Option AuthResponse :=
  let hashed := bcryptHash password 10
  match saveUser store { id := newId, username := username, password := hashed } with
  | .ok store2 => (store2, some { status := 201, message := "User registered successfully!", token := none })
  | .error _ => (store, none)

/-- Handler for POST /api/auth/login: findOne by username, then
bcrypt.compare; on success signs a 1-hour token over userId and
username, otherwise responds 400 with the message Invalid credentials. -/
def loginHandler (store : List UserRec) (username password secret : String) (now : Nat) :
    AuthResponse :=
  match store.find? (fun u => u.username == username) with
  | some user =>
    if bcryptCompare password user.password then
      { status := 200, message := "Login successful!"
        token := some (jwtSign user.id user.username secret now) }
    else { status := 400, message := "Invalid credentials", token := none }
  | none => { status := 400, message := "Invalid credentials", token := none }

/-! ## Session Middleware (`src/backend/middlewares/authMiddleware.js`) -/

/-- Outcome of the middleware on one request: either the request is
terminated with a status and message, or the decoded identity is
attached and control passes on. -/
inductive AuthResult
  | unauthorized (status : Nat) (message : String)
  | authorized (user : JwtPayload)
deriving DecidableEq, Repr

/-- Token extraction from the Authorization header: the token is the
second space-separated segment of the header, when it exists (optional
chaining yields no token when the header is absent). -/
def extractToken (header : Option String) : Option String :=
  header.bind fun h => (jsSplit h ' ')[1]?

/-- The middleware body: missing second segment (or an empty one — JS
`!token` is true on the empty string) yields `401 No token provided`;
otherwise the segment is verified and failure yields `401 Invalid
token`; success attaches the decoded payload as `req.user`. -/
def authMiddleware (header : Option String) (secret : String) (now : Nat) : AuthResult :=
  match extractToken header with
  | none => .unauthorized 401 "No token provided, authorization denied"
  | some t =>
    if t = "" then .unauthorized 401 "No token provided, authorization denied"
    else
      match jwtVerifyStr t secret now with
      | some payload => .authorized payload
      | none => .unauthorized 401 "Invalid token"

/-- Outcome of a protected route: denied by the middleware, or handled
by the downstream handler. -/
inductive RouteOutcome (α : Type)
  | denied (status : Nat) (message : String)
  | handled (result : α)
deriving DecidableEq, Repr

/-- Express wiring `router.METHOD(path, authMiddleware, handler)`: the
downstream handler runs only when the middleware calls `next()`. -/
def runProtected {α : Type} (header : Option String) (secret : String) (now : Nat)
    (handler : JwtPayload → α) : RouteOutcome α :=
  match authMiddleware header secret now with
  | .authorized u => .handled (handler u)
  | .unauthorized st msg => .denied st msg

/-! ## Playlist Service (`src/backend/routes/playlists.js`) -/

/-- A persisted playlist document: `{ _id, name, userId, songs }` with
`songs` an array of song ids. -/
structure Playlist where
  id : String
  name : String
  userId : String
  songs : List String
deriving DecidableEq, Repr

/-- MongoDB `$addToSet: { songs: { $each: new } }`: appends each element
of `new` in order, skipping those already present. -/
def addToSet (cur new : List String) : List String :=
  new.foldl (fun acc s => if s ∈ acc then acc else acc ++ [s]) cur

/-- Replace the (first) document with the given `_id`. -/
def replaceById : List Playlist → String → Playlist → List Playlist
  | [], _, _ => []
  | p :: ps, pid, q => if p.id == pid then q :: ps else p :: replaceById ps pid q

/-- An HTTP response from the playlist routes: status, the returned
playlist when there is one (`none` models a `null` JSON body), and the
message field when present. -/
structure PlaylistResponse where
  status : Nat
  playlist : Option Playlist
  message : Option String
deriving DecidableEq, Repr

/-- Handler for POST /api/playlists: creates a playlist owned by the
caller (req.user.userId), storing the supplied `songs` array verbatim. -/
def createPlaylistHandler (caller : JwtPayload) (store : List Playlist)
    (name : String) (songs : List String) (newId : String) :
    List Playlist × PlaylistResponse :=
  let p : Playlist := { id := newId, name := name, userId := caller.userId, songs := songs }
  (store ++ [p], { status := 201, playlist := some p, message := some "Playlist created successfully!" })

/-- Handler for GET /api/playlists: a find scoped to the caller userId —
only playlists owned by the caller. -/
def listPlaylistsHandler (caller : JwtPayload) (store : List Playlist) : List Playlist :=
  store.filter (fun p => p.userId == caller.userId)

/-- Handler for PUT /api/playlists/:playlistId/songs: findByIdAndUpdate
applying addToSet with each supplied song, returning the new document,
then res.json of the updated playlist.  On a missing id the update is a
no-op and the response body is null (status 200).  The caller
(req.user) is never consulted. -/
def addSongsHandler (caller : JwtPayload) (store : List Playlist)
    (pid : String) (songs : List String) : List Playlist × PlaylistResponse :=
  match store.find? (fun p => p.id == pid) with
  | some p =>
    let p2 : Playlist := { p with songs := addToSet p.songs songs }
    (replaceById store pid p2, { status := 200, playlist := some p2, message := none })
  | none => (store, { status := 200, playlist := none, message := none })

/-- Handler for DELETE /api/playlists/:playlistId: findByIdAndDelete then
a fixed success message, whether or not the id existed.  The caller is
never consulted. -/
def deletePlaylistHandler (caller : JwtPayload) (store : List Playlist)
    (pid : String) : List Playlist × PlaylistResponse :=
  (store.filter (fun p => !(p.id == pid)),
   { status := 200, playlist := none, message := some "Playlist deleted successfully!" })

/-- One Playlist Service operation, as issued by some authenticated
caller. -/
inductive PlOp
  | create (caller : JwtPayload) (name : String) (songs : List String) (newId : String)
  | add (caller : JwtPayload) (pid : String) (songs : List String)
  | del (caller : JwtPayload) (pid : String)

/-- The store after one operation. -/
def applyOp (store : List Playlist) : PlOp → List Playlist
  | .create c n s i => (createPlaylistHandler c store n s i).1
  | .add c pid s => (addSongsHandler c store pid s).1
  | .del c pid => (deletePlaylistHandler c store pid).1

/-- The store after a sequence of operations. -/
def applyOps (store : List Playlist) (ops : List PlOp) : List Playlist :=
  ops.foldl applyOp store

/-- Predicate holding when a create operation is given a duplicate-free
song list (trivially true for the other operations). -/
def createInputNodup : PlOp → Prop
  | .create _ _ s _ => s.Nodup
  | .add _ _ _ => True
  | .del _ _ => True

/-! ## Helper lemmas -/

theorem mem_addToSet (cur new : List String) (s : String) :
    s ∈ addToSet cur new ↔ s ∈ cur ∨ s ∈ new := by
  induction new generalizing cur with
  | nil => simp [addToSet]
  | cons a t ih =>
    simp only [addToSet, List.foldl_cons] at *
    by_cases h : a ∈ cur
    · rw [if_pos h, ih]
      constructor
      · rintro (hc | ht)
        · exact Or.inl hc
        · exact Or.inr (List.mem_cons_of_mem a ht)
      · rintro (hc | ht)
        · exact Or.inl hc
        · rcases List.mem_cons.mp ht with rfl | ht
          · exact Or.inl h
          · exact Or.inr ht
    · rw [if_neg h, ih]
      simp only [List.mem_append, List.mem_singleton, List.mem_cons]
      tauto

theorem nodup_addToSet (cur new : List String) (h : cur.Nodup) :
    (addToSet cur new).Nodup := by
  induction new generalizing cur with
  | nil => exact h
  | cons a t ih =>
    simp only [addToSet, List.foldl_cons]
    by_cases ha : a ∈ cur
    · rw [if_pos ha]
      exact ih cur h
    · rw [if_neg ha]
      refine ih _ ?_
      simp [List.nodup_append, h, ha]

theorem find?_replaceById (l : List Playlist) (pid : String) (p q : Playlist)
    (hf : l.find? (fun r => r.id == pid) = some p) (hq : q.id = pid) :
    (replaceById l pid q).find? (fun r => r.id == pid) = some q := by
  induction l with
  | nil => simp at hf
  | cons x xs ih =>
    by_cases hx : x.id = pid
    · simp [replaceById, hx, List.find?_cons, hq]
    · rw [List.find?_cons] at hf
      have hxb : (x.id == pid) = false := by simp [hx]
      rw [hxb] at hf
      simp only [replaceById, hxb, Bool.false_eq_true, if_false, cond_false]
      rw [List.find?_cons, hxb]
      exact ih hf

theorem mem_replaceById (l : List Playlist) (pid : String) (q r : Playlist)
    (h : r ∈ replaceById l pid q) : r ∈ l ∨ r = q := by
  induction l with
  | nil => simp [replaceById] at h
  | cons x xs ih =>
    simp only [replaceById] at h
    by_cases hx : (x.id == pid) = true
    · rw [if_pos hx] at h
      rcases List.mem_cons.mp h with rfl | h
      · exact Or.inr rfl
      · exact Or.inl (List.mem_cons_of_mem x h)
    · rw [if_neg hx] at h
      rcases List.mem_cons.mp h with rfl | h
      · exact Or.inl (List.mem_cons_self _ _)
      · rcases ih h with h | h
        · exact Or.inl (List.mem_cons_of_mem x h)
        · exact Or.inr h

theorem bcryptHash_inj (p q : String) (h : bcryptHash p 10 = bcryptHash q 10) : p = q := by
  have hd : ("$2b$" ++ toString 10 ++ "$").data ++ p.data
      = ("$2b$" ++ toString 10 ++ "$").data ++ q.data := by
    have := congrArg String.data h
    simpa [bcryptHash, String.data_append, List.append_assoc] using this
  exact congrArg String.mk (List.append_cancel_left hd)

theorem find?_append_of_none {α : Type} (l l2 : List α) (p : α → Bool)
    (h : l.find? p = none) : (l ++ l2).find? p = l2.find? p := by
  rw [List.find?_append, h]
  rfl

/-- Every playlist in the store has a duplicate-free song list. -/
def StoreNodup (store : List Playlist) : Prop :=
  ∀ p ∈ store, p.songs.Nodup

theorem storeNodup_applyOp (store : List Playlist) (op : PlOp)
    (hs : StoreNodup store) (hop : createInputNodup op) :
    StoreNodup (applyOp store op) := by
  cases op with
  | create c n s i =>
    intro p hp
    rcases List.mem_append.mp hp with h | h
    · exact hs p h
    · rcases List.mem_singleton.mp h with rfl
      exact hop
  | add c pid s =>
    intro p hp
    simp only [applyOp, addSongsHandler] at hp
    cases hf : store.find? (fun r => r.id == pid) with
    | none => rw [hf] at hp; exact hs p hp
    | some p0 =>
      rw [hf] at hp
      simp only at hp
      rcases mem_replaceById _ _ _ _ hp with h | h
      · exact hs p h
      · subst h
        exact nodup_addToSet _ _ (hs p0 (List.mem_of_find?_eq_some hf))
  | del c pid =>
    intro p hp
    exact hs p (List.mem_of_mem_filter hp)

/-! ## Claims -/

/-- C7: every token produced by issue carries an expiry exactly 1 hour
(3600 seconds) after its issuance instant, verifies successfully at any
time strictly before that expiry instant (in particular immediately
after issuance, since t0 < t0 + 3600), and fails verification at any
time after the expiry instant. -/
theorem issued_token_expiry_and_verification (userId username secret : String)
    (t0 t1 t2 : Nat) (h1 : t1 < t0 + 3600) (h2 : t0 + 3600 < t2) :
    (jwtSign userId username secret t0).payload.exp
        = (jwtSign userId username secret t0).payload.iat + 3600
    ∧ jwtVerify (jwtSign userId username secret t0) secret t1
        = some { userId := userId, username := username, iat := t0, exp := t0 + 3600 }
    ∧ jwtVerify (jwtSign userId username secret t0) secret t2 = none := by
  refine ⟨rfl, ?_, ?_⟩
  · simp [jwtVerify, jwtSign, h1]
  · unfold jwtVerify jwtSign
    rw [if_neg]
    rintro ⟨-, hlt⟩
    simp only at hlt
    omega

/-- Witness for C7 at a concrete issuance instant 0, checked at instants
5 (before expiry) and 4000 (after expiry). -/
theorem issued_token_expiry_and_verification_witness :
    (jwtSign "u1" "alice" "sec" 0).payload.exp
        = (jwtSign "u1" "alice" "sec" 0).payload.iat + 3600
    ∧ jwtVerify (jwtSign "u1" "alice" "sec" 0) "sec" 5
        = some { userId := "u1", username := "alice", iat := 0, exp := 0 + 3600 }
    ∧ jwtVerify (jwtSign "u1" "alice" "sec" 0) "sec" 4000 = none :=
  issued_token_expiry_and_verification "u1" "alice" "sec" 0 5 4000 (by decide) (by decide)

/-- C8: listing playlists is owner-scoped — every playlist returned by
the GET handler is owned by the authenticated caller, never by a
different identity. -/
theorem listForOwner_owner_scoped (caller : JwtPayload) (store : List Playlist)
    (p : Playlist) (hp : p ∈ listPlaylistsHandler caller store) :
    p.userId = caller.userId := by
  have h := (List.mem_filter.mp hp).2
  exact eq_of_beq h

/-- Witness for C8 on a concrete two-playlist store with two owners. -/
theorem listForOwner_owner_scoped_witness :
    ({ id := "p1", name := "Chill", userId := "u1", songs := [] } : Playlist).userId
      = ({ userId := "u1", username := "alice", iat := 0, exp := 3600 } : JwtPayload).userId :=
  listForOwner_owner_scoped { userId := "u1", username := "alice", iat := 0, exp := 3600 }
    [{ id := "p1", name := "Chill", userId := "u1", songs := [] },
     { id := "p2", name := "Mix", userId := "u2", songs := [] }]
    { id := "p1", name := "Chill", userId := "u1", songs := [] } (by decide)

/-- C9: no ownership check before mutation or deletion — for a playlist
whose owner differs from the caller, the PUT handler still applies the
song update (and its result is identical for any other caller), and the
DELETE handler still removes the playlist (likewise caller-independent). -/
theorem no_ownership_check_on_mutation (c c2 : JwtPayload) (store : List Playlist)
    (pid : String) (songs : List String) (p : Playlist)
    (hf : store.find? (fun r => r.id == pid) = some p)
    (hown : p.userId ≠ c.userId) :
    (addSongsHandler c store pid songs).2.playlist
        = some { p with songs := addToSet p.songs songs }
    ∧ addSongsHandler c store pid songs = addSongsHandler c2 store pid songs
    ∧ p ∉ (deletePlaylistHandler c store pid).1
    ∧ deletePlaylistHandler c store pid = deletePlaylistHandler c2 store pid := by
  refine ⟨?_, rfl, ?_, rfl⟩
  · simp [addSongsHandler, hf]
  · intro hmem
    have hpid : (p.id == pid) = true := by simpa using List.find?_some hf
    have h := (List.mem_filter.mp hmem).2
    rw [hpid] at h
    simp at h

/-- Witness for C9: caller u2 mutates and deletes the playlist owned by
u1. -/
theorem no_ownership_check_on_mutation_witness :
    (addSongsHandler { userId := "u2", username := "bob", iat := 0, exp := 3600 }
        [{ id := "p1", name := "Chill", userId := "u1", songs := ["s0"] }] "p1" ["s1"]).2.playlist
      = some { id := "p1", name := "Chill", userId := "u1", songs := addToSet ["s0"] ["s1"] } :=
  (no_ownership_check_on_mutation
    { userId := "u2", username := "bob", iat := 0, exp := 3600 }
    { userId := "u9", username := "eve", iat := 0, exp := 3600 }
    [{ id := "p1", name := "Chill", userId := "u1", songs := ["s0"] }]
    "p1" ["s1"]
    { id := "p1", name := "Chill", userId := "u1", songs := ["s0"] }
    (by decide) (by decide)).1

/-- C10: on a playlist id absent from the store, the PUT handler leaves
the store unchanged and responds 200 with a null body, and the DELETE
handler leaves the store unchanged and responds 200 with the success
message — neither produces a NotFound error. -/
theorem missing_playlist_id_no_notfound (caller : JwtPayload) (store : List Playlist)
    (pid : String) (songs : List String)
    (hf : store.find? (fun p => p.id == pid) = none) :
    addSongsHandler caller store pid songs
        = (store, { status := 200, playlist := none, message := none })
    ∧ deletePlaylistHandler caller store pid
        = (store, { status := 200, playlist := none, message := some "Playlist deleted successfully!" }) := by
  constructor
  · simp [addSongsHandler, hf]
  · unfold deletePlaylistHandler
    have hall : store.filter (fun p => !(p.id == pid)) = store := by
      apply List.filter_eq_self.mpr
      intro a ha
      have h := List.find?_eq_none.mp hf a ha
      simpa using h
    rw [hall]

/-- Witness for C10 on a concrete one-playlist store and a missing id. -/
theorem missing_playlist_id_no_notfound_witness :
    addSongsHandler { userId := "u1", username := "alice", iat := 0, exp := 3600 }
        [{ id := "p1", name := "Chill", userId := "u1", songs := [] }] "p9" ["s1"]
      = ([{ id := "p1", name := "Chill", userId := "u1", songs := [] }],
         { status := 200, playlist := none, message := none })
    ∧ deletePlaylistHandler { userId := "u1", username := "alice", iat := 0, exp := 3600 }
        [{ id := "p1", name := "Chill", userId := "u1", songs := [] }] "p9"
      = ([{ id := "p1", name := "Chill", userId := "u1", songs := [] }],
         { status := 200, playlist := none, message := some "Playlist deleted successfully!" }) :=
  missing_playlist_id_no_notfound { userId := "u1", username := "alice", iat := 0, exp := 3600 }
    [{ id := "p1", name := "Chill", userId := "u1", songs := [] }] "p9" ["s1"] (by decide)

/-- C1 counterexample: on a playlist that already holds song s0, adding
S1 = [s1] and then S2 = [s2] yields the song list [s0, s1, s2], whose
set is not the union of S1 and S2 (s0 belongs to the result but not to
the union), refuting the claim for arbitrary playlists. -/
theorem addSongs_union_counterexample :
    (addSongsHandler { userId := "u1", username := "alice", iat := 0, exp := 3600 }
        (addSongsHandler { userId := "u1", username := "alice", iat := 0, exp := 3600 }
          [{ id := "p1", name := "Chill", userId := "u1", songs := ["s0"] }] "p1" ["s1"]).1
        "p1" ["s2"]).2.playlist
      = some { id := "p1", name := "Chill", userId := "u1", songs := ["s0", "s1", "s2"] }
    ∧ "s0" ∈ (["s0", "s1", "s2"] : List String)
    ∧ "s0" ∉ (["s1"] : List String) ++ ["s2"] := by
  refine ⟨by decide, by decide, by decide⟩

/-- C1 amended: adding S1 and then S2 to an existing playlist yields a
playlist whose song set is the union of the prior song set with S1 and
S2; no duplicates are introduced, so the result is duplicate-free
whenever the prior song list was (in particular, when the playlist
started empty the song set is exactly the union of S1 and S2). -/
theorem addSongs_twice_union (caller : JwtPayload) (store : List Playlist)
    (pid : String) (S1 S2 : List String) (p : Playlist)
    (hf : store.find? (fun r => r.id == pid) = some p) :
    (addSongsHandler caller (addSongsHandler caller store pid S1).1 pid S2).2.playlist
        = some { p with songs := addToSet (addToSet p.songs S1) S2 }
    ∧ (∀ s, s ∈ addToSet (addToSet p.songs S1) S2 ↔ (s ∈ p.songs ∨ s ∈ S1 ∨ s ∈ S2))
    ∧ (p.songs.Nodup → (addToSet (addToSet p.songs S1) S2).Nodup) := by
  have hpid : (p.id == pid) = true := by simpa using List.find?_some hf
  have hqid : ({ p with songs := addToSet p.songs S1 } : Playlist).id = pid := by
    simpa using eq_of_beq hpid
  have h1 : (addSongsHandler caller store pid S1).1
      = replaceById store pid { p with songs := addToSet p.songs S1 } := by
    simp [addSongsHandler, hf]
  have h2 : (replaceById store pid { p with songs := addToSet p.songs S1 }).find?
        (fun r => r.id == pid)
      = some { p with songs := addToSet p.songs S1 } :=
    find?_replaceById store pid p _ hf hqid
  refine ⟨?_, ?_, ?_⟩
  · rw [h1]
    simp [addSongsHandler, h2]
  · intro s
    rw [mem_addToSet, mem_addToSet]
    tauto
  · intro hnd
    exact nodup_addToSet _ _ (nodup_addToSet _ _ hnd)

/-- Witness for C1 amended on a concrete store, playlist, and song
batches with overlap between the playlist and S1. -/
theorem addSongs_twice_union_witness :
    (addSongsHandler { userId := "u1", username := "alice", iat := 0, exp := 3600 }
        (addSongsHandler { userId := "u1", username := "alice", iat := 0, exp := 3600 }
          [{ id := "p1", name := "Chill", userId := "u1", songs := ["s0"] }] "p1" ["s0", "s1"]).1
        "p1" ["s1", "s2"]).2.playlist
      = some { id := "p1", name := "Chill", userId := "u1",
               songs := addToSet (addToSet ["s0"] ["s0", "s1"]) ["s1", "s2"] } :=
  (addSongs_twice_union { userId := "u1", username := "alice", iat := 0, exp := 3600 }
    [{ id := "p1", name := "Chill", userId := "u1", songs := ["s0"] }]
    "p1" ["s0", "s1"] ["s1", "s2"]
    { id := "p1", name := "Chill", userId := "u1", songs := ["s0"] } (by decide)).1

/-- C2 counterexample: a reachable state — produced by a single create
with the repeated list [s1, s1] — holds a playlist whose song list
contains two references to the same song, refuting the claim that the
invariant survives create with repeats. -/
theorem reachable_playlist_duplicate_counterexample :
    applyOps []
        [PlOp.create { userId := "u1", username := "alice", iat := 0, exp := 3600 }
          "Mix" ["s1", "s1"] "p1"]
      = [{ id := "p1", name := "Mix", userId := "u1", songs := ["s1", "s1"] }]
    ∧ ¬ (["s1", "s1"] : List String).Nodup := by
  refine ⟨by decide, by decide⟩

theorem storeNodup_applyOps (ops : List PlOp) : ∀ store, StoreNodup store →
    (∀ op ∈ ops, createInputNodup op) → StoreNodup (applyOps store ops) := by
  induction ops with
  | nil =>
    intro store hs _
    simpa [applyOps] using hs
  | cons op t ih =>
    intro store hs hops
    have h1 : StoreNodup (applyOp store op) :=
      storeNodup_applyOp store op hs (hops op (List.mem_cons_self _ _))
    have h2 := ih (applyOp store op) h1 (fun o ho => hops o (List.mem_cons_of_mem _ ho))
    simpa [applyOps, List.foldl_cons] using h2

/-- C2 amended: along any sequence of Playlist Service operations whose
create operations are given duplicate-free song lists, every playlist in
every reachable store state has a duplicate-free song list (addSongs
adds with set semantics and delete only removes, so only create can
introduce duplicates — by storing its input verbatim). -/
theorem reachable_playlists_nodup (ops : List PlOp)
    (h : ∀ op ∈ ops, createInputNodup op) :
    ∀ p ∈ applyOps [] ops, p.songs.Nodup :=
  storeNodup_applyOps ops [] (fun p hp => absurd hp (List.not_mem_nil p)) h

/-- Witness for C2 amended: after a duplicate-free create followed by an
overlapping addSongs, the stored playlist is duplicate-free. -/
theorem reachable_playlists_nodup_witness :
    ({ id := "p1", name := "A", userId := "u1", songs := ["s1", "s2", "s3"] } : Playlist).songs.Nodup :=
  reachable_playlists_nodup
    [PlOp.create { userId := "u1", username := "alice", iat := 0, exp := 3600 } "A" ["s1", "s2"] "p1",
     PlOp.add { userId := "u1", username := "alice", iat := 0, exp := 3600 } "p1" ["s2", "s3"]]
    (by
      intro op hop
      simp only [List.mem_cons, List.not_mem_nil, or_false] at hop
      rcases hop with rfl | rfl
      · exact (by decide : (["s1", "s2"] : List String).Nodup)
      · trivial)
    { id := "p1", name := "A", userId := "u1", songs := ["s1", "s2", "s3"] }
    (by decide)

/-- C3: for a username not yet in the credential store, register followed
by login with the same credentials succeeds — register responds 201,
login responds 200 with a token, and the identity claim decoded from
that token carries the registered username. -/
theorem register_then_login_roundtrip (store : List UserRec)
    (username password newId secret : String) (now : Nat)
    (hfresh : store.find? (fun u => u.username == username) = none) :
    ∃ tok : Token,
      (registerHandler store username password newId).2
          = some { status := 201, message := "User registered successfully!", token := none }
      ∧ loginHandler (registerHandler store username password newId).1 username password secret now
          = { status := 200, message := "Login successful!", token := some tok }
      ∧ tok.payload.username = username := by
  have hany : store.any (fun v => v.username == username) = false := by
    rw [List.any_eq_false]
    intro x hx
    have h := List.find?_eq_none.mp hfresh x hx
    simpa using h
  have hstore : (registerHandler store username password newId).1
      = store ++ [{ id := newId, username := username, password := bcryptHash password 10 }] := by
    simp [registerHandler, saveUser, hany]
  refine ⟨jwtSign newId username secret now, ?_, ?_, rfl⟩
  · simp [registerHandler, saveUser, hany]
  · rw [hstore]
    have hfind : List.find? (fun u => u.username == username)
          (store ++ [({ id := newId, username := username, password := bcryptHash password 10 } : UserRec)])
        = some { id := newId, username := username, password := bcryptHash password 10 } := by
      rw [find?_append_of_none store _ _ hfresh]
      simp [List.find?_cons]
    unfold loginHandler
    rw [hfind]
    simp [bcryptCompare]

/-- Witness for C3: register and login for alice on an empty store. -/
theorem register_then_login_roundtrip_witness :
    ∃ tok : Token,
      (registerHandler [] "alice" "pw1" "u1").2
          = some { status := 201, message := "User registered successfully!", token := none }
      ∧ loginHandler (registerHandler [] "alice" "pw1" "u1").1 "alice" "pw1" "sec" 0
          = { status := 200, message := "Login successful!", token := some tok }
      ∧ tok.payload.username = "alice" :=
  register_then_login_roundtrip [] "alice" "pw1" "u1" "sec" 0 rfl

/-- C5 counterexample: with alice already registered, a second register
for alice produces no HTTP response from the handler at all — in
particular no 4xx response with a message — because the handler has no
error handling and the store-level uniqueness rejection escapes
unhandled (the store is also left unchanged). -/
theorem register_duplicate_counterexample :
    registerHandler [{ id := "u1", username := "alice", password := bcryptHash "pw1" 10 }]
        "alice" "pw2" "u2"
      = ([{ id := "u1", username := "alice", password := bcryptHash "pw1" 10 }], none) := by
  rfl

/-- C5 amended: when the username already exists in the store, the
register handler leaves the store unchanged and sends no response of its
own (the uniqueness violation propagates as an unhandled rejection to
the framework, not as a 4xx domain response). -/
theorem register_duplicate_unhandled (store : List UserRec)
    (username password newId : String)
    (hdup : store.any (fun v => v.username == username) = true) :
    registerHandler store username password newId = (store, none) := by
  simp [registerHandler, saveUser, hdup]

/-- Witness for C5 amended, registering alice twice. -/
theorem register_duplicate_unhandled_witness :
    registerHandler [{ id := "u1", username := "alice", password := bcryptHash "pw1" 10 }]
        "alice" "pw2" "u2"
      = ([{ id := "u1", username := "alice", password := bcryptHash "pw1" 10 }], none) :=
  register_duplicate_unhandled
    [{ id := "u1", username := "alice", password := bcryptHash "pw1" 10 }]
    "alice" "pw2" "u2" (by rfl)

/-- C6: a login with a wrong password for an existing username and a
login with an unknown username produce the very same response — status
400, message Invalid credentials, no token — so the two failure causes
are indistinguishable at the HTTP boundary. -/
theorem login_failure_uniform (store : List UserRec)
    (username pw secret : String) (now : Nat) :
    (∀ user actual, store.find? (fun u => u.username == username) = some user →
        user.password = bcryptHash actual 10 → actual ≠ pw →
        loginHandler store username pw secret now
          = { status := 400, message := "Invalid credentials", token := none })
    ∧ (store.find? (fun u => u.username == username) = none →
        loginHandler store username pw secret now
          = { status := 400, message := "Invalid credentials", token := none }) := by
  constructor
  · intro user actual hf hpw hne
    have hcmp : bcryptCompare pw user.password = false := by
      rw [hpw, bcryptCompare]
      refine beq_eq_false_iff_ne.mpr ?_
      intro h
      exact hne (bcryptHash_inj actual pw h)
    simp [loginHandler, hf, hcmp]
  · intro hf
    simp [loginHandler, hf]

/-- Witness for C6: wrong password for alice, and unknown user bob, get
the identical response. -/
theorem login_failure_uniform_witness :
    loginHandler [{ id := "u1", username := "alice", password := bcryptHash "pw1" 10 }]
        "alice" "wrong" "sec" 0
      = { status := 400, message := "Invalid credentials", token := none }
    ∧ loginHandler [] "bob" "pw" "sec" 0
      = { status := 400, message := "Invalid credentials", token := none } :=
  ⟨(login_failure_uniform [{ id := "u1", username := "alice", password := bcryptHash "pw1" 10 }]
      "alice" "wrong" "sec" 0).1
      { id := "u1", username := "alice", password := bcryptHash "pw1" 10 } "pw1"
      (by rfl) rfl (by decide),
   (login_failure_uniform [] "bob" "pw" "sec" 0).2 rfl⟩

/-- C4 counterexample: a request with the non-bearer header Basic xyz is
not treated like an absent header — the middleware takes xyz as a token,
attempts verification, and responds 401 Invalid token, while an absent
header yields 401 No token provided; the two messages differ, so the two
cases are not handled identically as NoToken. -/
theorem malformed_scheme_not_notoken_counterexample :
    authMiddleware (some "Basic xyz") "secret" 0
      = AuthResult.unauthorized 401 "Invalid token"
    ∧ authMiddleware none "secret" 0
      = AuthResult.unauthorized 401 "No token provided, authorization denied"
    ∧ ("Invalid token" : String) ≠ "No token provided, authorization denied" := by
  refine ⟨by decide, by decide, by decide⟩

/-- C4 amended: when the header is absent or has no nonempty second
space-separated segment the middleware responds 401 No token provided;
when a nonempty second segment is present but fails verification it
responds 401 Invalid token; in every unauthorized case the request is
terminated with status 401 and the downstream handler never executes
(the protected route outcome is the denial and is independent of the
handler). -/
theorem authMiddleware_fail_closed (header : Option String) (secret : String) (now : Nat) :
    ((extractToken header = none ∨ extractToken header = some "") →
      authMiddleware header secret now
        = AuthResult.unauthorized 401 "No token provided, authorization denied")
    ∧ (∀ t, extractToken header = some t → t ≠ "" → jwtVerifyStr t secret now = none →
        authMiddleware header secret now = AuthResult.unauthorized 401 "Invalid token")
    ∧ (∀ (st : Nat) (msg : String),
        authMiddleware header secret now = AuthResult.unauthorized st msg →
        ∀ (α : Type) (h1 h2 : JwtPayload → α),
          runProtected header secret now h1 = RouteOutcome.denied st msg
          ∧ runProtected header secret now h1 = runProtected header secret now h2) := by
  refine ⟨?_, ?_, ?_⟩
  · rintro (h | h) <;> simp [authMiddleware, h]
  · intro t ht hne hv
    simp [authMiddleware, ht, hne, hv]
  · intro st msg hmw α h1 h2
    constructor <;> simp [runProtected, hmw]

/-- Witness for C4 amended: the absent-header case, the malformed
Basic-scheme case, and the fail-closed protected route on the absent
header with two distinct concrete handlers. -/
theorem authMiddleware_fail_closed_witness :
    authMiddleware none "secret" 0
      = AuthResult.unauthorized 401 "No token provided, authorization denied"
    ∧ authMiddleware (some "Basic xyz") "secret" 0
      = AuthResult.unauthorized 401 "Invalid token"
    ∧ runProtected none "secret" 0 (fun _ => (0 : Nat))
      = RouteOutcome.denied 401 "No token provided, authorization denied"
    ∧ runProtected none "secret" 0 (fun _ => (0 : Nat))
      = runProtected none "secret" 0 (fun _ => (1 : Nat)) := by
  have h1 := (authMiddleware_fail_closed none "secret" 0).1 (Or.inl rfl)
  have h2 := (authMiddleware_fail_closed (some "Basic xyz") "secret" 0).2.1 "xyz"
    (by decide) (by decide) (by decide)
  have h3 := (authMiddleware_fail_closed none "secret" 0).2.2 401
    "No token provided, authorization denied" h1 Nat (fun _ => 0) (fun _ => 1)
  exact ⟨h1, h2, h3.1, h3.2⟩

/-- Sanity check that the middleware model is not vacuously rejecting:
a well-formed bearer header carrying a token signed with the right
secret is authorized and the decoded identity is attached. -/
theorem authMiddleware_accepts_valid_token_example :
    authMiddleware (some ("Bearer " ++ tokenToStr (jwtSign "u1" "alice" "sec" 0))) "sec" 5
      = AuthResult.authorized { userId := "u1", username := "alice", iat := 0, exp := 3600 } := by
  decide
